import Mathlib

/-
Verification of the View-Change (VC) block validation and application pipeline
of the Zilliqa repository, shallowly embedded from
src/libNode/ViewChangeBlockProcessing.cpp.

External collaborators of the pipeline (the Messenger codec, the Schnorr
multi-signature library, the block storage backend, the mediator's freshness
and timestamp checks) are not part of the translated file; they appear as
abstract function parameters collected in `NodeEnv`, so every theorem below
is quantified over their behavior unless a concrete environment is supplied.
-/

namespace Zil

/-- Public keys are abstracted to naturals; the pipeline only compares them. -/
abbrev PubKey := Nat

/-- Network peer: IP and listen port. `Peer()` default-constructs to 0.0.0.0:0. -/
structure Peer where
  ip : Nat
  port : Nat
  deriving DecidableEq, Repr

/-- The zero peer sentinel produced by the default constructor `Peer()`. -/
def zeroPeer : Peer := ⟨0, 0⟩

/-- An entry of the DS committee, `std::pair<PubKey, Peer>` in the source. -/
abbrev PairOfNode := PubKey × Peer

/-- The DS committee deque (`DequeOfNode`), modelled as a list front-to-back. -/
abbrev DequeOfNode := List PairOfNode

/-- Byte strings (`bytes` in the source), abstracted to lists of naturals. -/
abbrev Bytes := List Nat

/-- Hashes (`BlockHash`, `CommitteeHash`) are abstract values compared for equality. -/
abbrev BlockHash := Nat

/-- Collective signatures (CS1/CS2) are opaque values in this file. -/
abbrev Signature := Nat

/-- Header of a VC block, with the fields read by ViewChangeBlockProcessing.cpp. -/
structure VCBlockHeader where
  version : Nat
  viewChangeDSEpochNo : Nat
  viewChangeEpochNo : Nat
  viewChangeState : Nat
  candidateLeaderNetworkInfo : Peer
  candidateLeaderPubKey : PubKey
  faultyLeaders : List PairOfNode
  committeeHash : Nat
  deriving DecidableEq, Repr

/-- A VC block: header, the two-round co-signature and its bitmaps, timestamp,
and the canonical block hash carried alongside the header. -/
structure VCBlock where
  header : VCBlockHeader
  cs1 : Signature
  b1 : List Bool
  cs2 : Signature
  b2 : List Bool
  timestamp : Nat
  blockHash : BlockHash
  deriving DecidableEq, Repr

/-- Block types recorded on the block-link chain (closed enum in the source). -/
inductive BlockType where
  | TX
  | DS
  | VC
  | Micro
  | Final
  deriving DecidableEq, Repr

/-- A link of the BlockLinkChain, as appended by `AddBlockLink`. -/
structure BlockLink where
  index : Nat
  dsEpoch : Nat
  blockType : BlockType
  hash : BlockHash
  deriving DecidableEq, Repr

/-- Node-local state touched by the pipeline: the DS committee, the block-link
chain (newest link first) and the persisted VC-block store. -/
structure NodeState where
  dsCommittee : DequeOfNode
  blockLinks : List BlockLink
  vcBlockStore : List (BlockHash × Bytes)
  deriving DecidableEq, Repr

/-- Abstract environment: the external collaborators called by the pipeline,
the configuration constants, and this node's identity. -/
structure NodeEnv where
  serializeHeader : VCBlockHeader → Option Bytes
  serializeSig : Signature → Bytes
  encodeBitVector : List Bool → Bytes
  aggregatePubKeys : List PubKey → Option Nat
  multiSigVerify : Bytes → Signature → Nat → Bool
  getMyHash : VCBlockHeader → BlockHash
  getDSCommitteeHash : DequeOfNode → Option Nat
  checkWhetherBlockIsLatest : Nat → Nat → Bool
  verifyTimestamp : Nat → Bool
  isDSBlockVCState : Nat → Bool
  getNodeVCBlock : Bytes → Nat → Option VCBlock
  setNodeVCBlock : VCBlock → Option Bytes
  serializeVCBlock : VCBlock → Bytes
  putVCBlockOk : Bool
  selfKey : PubKey
  vcBlockVersion : Nat
  guardMode : Bool
  lookupNodeMode : Bool
  broadcastTreebasedClusterMode : Bool
  currentEpochNum : Nat
  msgTypeNode : Nat
  insTypeVCBlock : Nat

/-- Modelled from the spec: `ConsensusCommon::NumForConsensus` is not part of
the translated file; the spec defines it as the BFT supermajority threshold
`⌈2n/3⌉ + 1`. `ceilTwoThirds` is the ceiling part. -/
def ceilTwoThirds (n : Nat) : Nat := (2 * n + 2) / 3

/-- Modelled from the spec: `num_for_consensus(n) = ⌈2n/3⌉ + 1`. -/
def NumForConsensus (n : Nat) : Nat := ceilTwoThirds n + 1

/-- Key-selection loop of `VerifyVCBlockCoSignature`: walk the committee in
order and keep the public key of each member whose B2 bit is set. -/
def selectKeys : DequeOfNode → List Bool → List PubKey
  | _, [] => []
  | [], _ :: _ => []
  | kv :: rest, b :: bs =>
    if b then kv.1 :: selectKeys rest bs else selectKeys rest bs

/-- Embedding of `Node::VerifyVCBlockCoSignature` (lines 51-105): bitmap-size
gate, signer-count gate against `NumForConsensus`, public-key aggregation,
message composition `serialize(header) ++ serialize(cs1) ++ encode(b1)`, and
the final multi-signature check. -/
def VerifyVCBlockCoSignature (env : NodeEnv) (committee : DequeOfNode)
    (vcblock : VCBlock) : Bool :=
  if committee.length ≠ vcblock.b2.length then false
  else if (selectKeys committee vcblock.b2).length ≠ NumForConsensus vcblock.b2.length then
    false
  else
    match env.aggregatePubKeys (selectKeys committee vcblock.b2) with
    | none => false
    | some aggregatedKey =>
      match env.serializeHeader vcblock.header with
      | none => false
      | some headerBytes =>
        env.multiSigVerify
          (headerBytes ++ env.serializeSig vcblock.cs1 ++ env.encodeBitVector vcblock.b1)
          vcblock.cs2 aggregatedKey

/-- Index of the most recent block link (`BlockLinkChain::GetLatestIndex`);
links are stored newest first. -/
def getLatestIndex (links : List BlockLink) : Nat :=
  match links with
  | [] => 0
  | l :: _ => l.index

/-- The block link appended for a VC block: `(latest_index+1, ds_epoch, VC, hash)`. -/
def vcBlockLink (s : NodeState) (vcblock : VCBlock) : BlockLink :=
  { index := getLatestIndex s.blockLinks + 1
    dsEpoch := vcblock.header.viewChangeDSEpochNo
    blockType := BlockType.VC
    hash := vcblock.blockHash }

/-- State after the `AddBlockLink` call of `ProcessVCBlockCore` (lines 230-233). -/
def withLink (s : NodeState) (vcblock : VCBlock) : NodeState :=
  { s with blockLinks := vcBlockLink s vcblock :: s.blockLinks }

/-- State after a successful `PutVCBlock` (lines 238-239). -/
def withStoredBlock (s : NodeState) (vcblock : VCBlock) (dst : Bytes) : NodeState :=
  { s with vcBlockStore := (vcblock.blockHash, dst) :: s.vcBlockStore }

/-- One iteration of the faulty-leader loop of
`Node::UpdateDSCommiteeCompositionAfterVC` (lines 270-290): if the faulty
leader is this node (own pubkey with the zero-peer sentinel) look for
`(selfPk, Peer())`, otherwise for the exact pair; erase the first hit if any
(warn-and-continue otherwise), then append the faulty pair to the back. -/
def updateStep (selfKey : PubKey) (dsComm : DequeOfNode) (faultyLeader : PairOfNode) :
    DequeOfNode :=
  (if faultyLeader.1 = selfKey ∧ faultyLeader.2 = zeroPeer then
    dsComm.erase (faultyLeader.1, zeroPeer)
  else
    dsComm.erase faultyLeader) ++ [faultyLeader]

/-- Embedding of `Node::UpdateDSCommiteeCompositionAfterVC` (lines 263-291):
no-op under guard mode, otherwise fold the faulty-leader loop over the header
list in order. -/
def UpdateDSCommiteeCompositionAfterVC (guardMode : Bool) (selfKey : PubKey)
    (vcblock : VCBlock) (dsComm : DequeOfNode) : DequeOfNode :=
  if guardMode then dsComm
  else vcblock.header.faultyLeaders.foldl (updateStep selfKey) dsComm

/-- Embedding of `Node::UpdateRetrieveDSCommiteeCompositionAfterVC`
(lines 294-314): like the normal variant, but the search compares the public
key only. -/
def UpdateRetrieveDSCommiteeCompositionAfterVC (guardMode : Bool)
    (vcblock : VCBlock) (dsComm : DequeOfNode) : DequeOfNode :=
  if guardMode then dsComm
  else
    vcblock.header.faultyLeaders.foldl
      (fun c f => (c.eraseP (fun p => p.1 == f.1)) ++ [f]) dsComm

/-- Embedding of `Node::ProcessVCBlockCore` (lines 158-258): the gates in
source order (epoch equality, freshness, self-hash, duplicate, timestamp,
committee hash, co-signature), then the block-link append, the persistence
write, and the committee mutation. -/
def ProcessVCBlockCore (env : NodeEnv) (s : NodeState) (vcblock : VCBlock) :
    Bool × NodeState :=
  if vcblock.header.viewChangeEpochNo ≠ env.currentEpochNum then (false, s)
  else if !(env.checkWhetherBlockIsLatest vcblock.header.viewChangeDSEpochNo
      vcblock.header.viewChangeEpochNo) then (false, s)
  else if env.getMyHash vcblock.header ≠ vcblock.blockHash then (false, s)
  else if (s.vcBlockStore.lookup (env.getMyHash vcblock.header)).isSome then (false, s)
  else if !(env.verifyTimestamp vcblock.timestamp) then (false, s)
  else
    match env.getDSCommitteeHash s.dsCommittee with
    | none => (false, s)
    | some committeeHash =>
      if committeeHash ≠ vcblock.header.committeeHash then (false, s)
      else if !(VerifyVCBlockCoSignature env s.dsCommittee vcblock) then (false, s)
      else if !env.putVCBlockOk then (false, withLink s vcblock)
      else
        let s2 := withStoredBlock (withLink s vcblock) vcblock
          (env.serializeVCBlock vcblock)
        let newComm := UpdateDSCommiteeCompositionAfterVC env.guardMode env.selfKey
          vcblock s2.dsCommittee
        (true, { s2 with dsCommittee := newComm })

/-- Embedding of `Node::ProcessVCBlock` (lines 107-155): decode, version and
state-tag gates, then the core pipeline, then the optional fan-out re-encode.
The third component collects the messages handed to
`SendVCBlockToOtherShardNodes`. -/
def ProcessVCBlock (env : NodeEnv) (s : NodeState) (message : Bytes)
    (curOffset : Nat) : Bool × NodeState × List Bytes :=
  match env.getNodeVCBlock message curOffset with
  | none => (false, s, [])
  | some vcblock =>
    if vcblock.header.version ≠ env.vcBlockVersion then (false, s, [])
    else if env.isDSBlockVCState vcblock.header.viewChangeState then (false, s, [])
    else if !(ProcessVCBlockCore env s vcblock).1 then
      (false, (ProcessVCBlockCore env s vcblock).2, [])
    else if !env.lookupNodeMode && env.broadcastTreebasedClusterMode then
      match env.setNodeVCBlock vcblock with
      | none => (true, (ProcessVCBlockCore env s vcblock).2, [])
      | some body =>
        (true, (ProcessVCBlockCore env s vcblock).2,
          [env.msgTypeNode :: env.insTypeVCBlock :: body])
    else (true, (ProcessVCBlockCore env s vcblock).2, [])

/-- Width of `unsigned int` in the source. -/
def U32 : Nat := 4294967296

/-- Cluster-size computation of `Node::SendVCBlockToOtherShardNodes`
(lines 316-333), with 32-bit unsigned semantics: start from
`NUM_FORWARDED_BLOCK_RECEIVERS_PER_SHARD` and bump to `NUM_DS_ELECTION + 1`
when not strictly greater than `NUM_DS_ELECTION`. -/
def sendVCBlockClusterSize (numForwardedReceivers numDSElection : Nat) : Nat :=
  if numForwardedReceivers % U32 ≤ numDSElection % U32 then
    (numDSElection % U32 + 1) % U32
  else numForwardedReceivers % U32

/-- The validation gates of `ProcessVCBlockCore`, in source order. -/
def coreGatesPass (env : NodeEnv) (s : NodeState) (vcblock : VCBlock) : Prop :=
  vcblock.header.viewChangeEpochNo = env.currentEpochNum ∧
  env.checkWhetherBlockIsLatest vcblock.header.viewChangeDSEpochNo
    vcblock.header.viewChangeEpochNo = true ∧
  env.getMyHash vcblock.header = vcblock.blockHash ∧
  s.vcBlockStore.lookup (env.getMyHash vcblock.header) = none ∧
  env.verifyTimestamp vcblock.timestamp = true ∧
  env.getDSCommitteeHash s.dsCommittee = some vcblock.header.committeeHash ∧
  VerifyVCBlockCoSignature env s.dsCommittee vcblock = true

/-- All validation gates of the full `ProcessVCBlock` pipeline: decode,
version, state tag, then the core gates. -/
def allGatesPass (env : NodeEnv) (s : NodeState) (message : Bytes)
    (curOffset : Nat) : Prop :=
  ∃ vcblock, env.getNodeVCBlock message curOffset = some vcblock ∧
    vcblock.header.version = env.vcBlockVersion ∧
    env.isDSBlockVCState vcblock.header.viewChangeState = false ∧
    coreGatesPass env s vcblock

/-! Concrete scenario used by witnesses and counterexamples: a three-member
committee whose co-signature checks pass under a permissive environment. -/

/-- Concrete three-member DS committee. -/
def commEx : DequeOfNode := [(1, ⟨1, 1⟩), (2, ⟨2, 2⟩), (3, ⟨3, 3⟩)]

/-- Concrete VC block header accepted by `envOk`. -/
def hdrEx : VCBlockHeader :=
  { version := 1
    viewChangeDSEpochNo := 5
    viewChangeEpochNo := 7
    viewChangeState := 0
    candidateLeaderNetworkInfo := ⟨9, 9⟩
    candidateLeaderPubKey := 9
    faultyLeaders := [(2, ⟨2, 2⟩)]
    committeeHash := 55 }

/-- Concrete VC block: all three B2 bits set (`NumForConsensus 3 = 3`), while
B1 is empty. -/
def vcEx : VCBlock :=
  { header := hdrEx
    cs1 := 0
    b1 := []
    cs2 := 0
    b2 := [true, true, true]
    timestamp := 100
    blockHash := 77 }

/-- Concrete starting state for the pipeline runs. -/
def sEx : NodeState :=
  { dsCommittee := commEx
    blockLinks := []
    vcBlockStore := [] }

/-- Concrete environment under which every gate of the pipeline passes for
`vcEx` starting from `sEx`. -/
def envOk : NodeEnv :=
  { serializeHeader := fun _ => some [1]
    serializeSig := fun _ => [2]
    encodeBitVector := fun _ => [3]
    aggregatePubKeys := fun _ => some 0
    multiSigVerify := fun _ _ _ => true
    getMyHash := fun _ => 77
    getDSCommitteeHash := fun _ => some 55
    checkWhetherBlockIsLatest := fun _ _ => true
    verifyTimestamp := fun _ => true
    isDSBlockVCState := fun _ => false
    getNodeVCBlock := fun _ _ => some vcEx
    setNodeVCBlock := fun _ => some [9]
    serializeVCBlock := fun _ => [8]
    putVCBlockOk := true
    selfKey := 1
    vcBlockVersion := 1
    guardMode := false
    lookupNodeMode := true
    broadcastTreebasedClusterMode := false
    currentEpochNum := 7
    msgTypeNode := 1
    insTypeVCBlock := 3 }

/-- Variant of `envOk` whose decoder fails. -/
def envDecodeFail : NodeEnv := { envOk with getNodeVCBlock := fun _ _ => none }

/-- Variant of `envOk` whose persistence write fails. -/
def envPutFail : NodeEnv := { envOk with putVCBlockOk := false }

/-- Variant of `envOk` acting as a broadcasting shard node whose fan-out
re-encoding fails. -/
def envNoEncode : NodeEnv :=
  { envOk with
    setNodeVCBlock := fun _ => none
    lookupNodeMode := false
    broadcastTreebasedClusterMode := true }

/-- Concrete committee members for the worked committee-mutation example. -/
def pA : PairOfNode := (10, ⟨10, 10⟩)

/-- Concrete committee member B. -/
def pB : PairOfNode := (11, ⟨11, 11⟩)

/-- Concrete committee member C. -/
def pC : PairOfNode := (12, ⟨12, 12⟩)

/-- Concrete committee member D. -/
def pD : PairOfNode := (13, ⟨13, 13⟩)

/-- Concrete committee member E. -/
def pE : PairOfNode := (14, ⟨14, 14⟩)

/-- A VC block carrying the given faulty-leader list. -/
def vcFaulty (fs : List PairOfNode) : VCBlock :=
  { vcEx with header := { hdrEx with faultyLeaders := fs } }

/-- Post-state of the concrete accepting run from `sEx`: link appended, block
stored, faulty leader `(2, 2.2.2.2)` rotated to the committee tail. -/
def sAfterEx : NodeState :=
  { dsCommittee := [(1, ⟨1, 1⟩), (3, ⟨3, 3⟩), (2, ⟨2, 2⟩)]
    blockLinks := [{ index := 1, dsEpoch := 5, blockType := BlockType.VC, hash := 77 }]
    vcBlockStore := [(77, [8])] }

/-- Modelled from the spec: `DirectoryService::CalculateNewDifficultyCore` is
not part of the translated file (only its golden test vectors are), so this
follows the prose semantics of spec §4.6 word for word: with
`delta = pow_submissions − expected_nodes`, increment by one when
`delta*100/expected_nodes ≥ adjust_threshold` and
`current_nodes ≥ expected_nodes`; decrement by one when submissions fall
short of expected by the threshold percentage and
`current_nodes < expected_nodes`; add a secular +1 when
`current_epoch % blocks_per_year == 0`; clamp to `[min_difficulty, 255]`. -/
def specProseRetarget (currentDifficulty minDifficulty : Int)
    (currentNodes powSubmissions expectedNodes adjustThreshold
      currentEpochNum numBlocksPerYear : Int) : Int :=
  let delta := powSubmissions - expectedNodes
  let base :=
    if delta * 100 / expectedNodes ≥ adjustThreshold ∧
        currentNodes ≥ expectedNodes then
      currentDifficulty + 1
    else if (expectedNodes - powSubmissions) * 100 / expectedNodes
          ≥ adjustThreshold ∧ currentNodes < expectedNodes then
      currentDifficulty - 1
    else currentDifficulty
  let secular := if currentEpochNum % numBlocksPerYear = 0 then base + 1 else base
  max minDifficulty (min secular 255)

/-! Helper lemmas. -/

/-- The key-selection loop returns one key per set B2 bit when the bitmap has
the committee's length. -/
theorem selectKeys_length : ∀ (c : DequeOfNode) (b : List Bool),
    c.length = b.length → (selectKeys c b).length = b.count true := by
  intro c
  induction c with
  | nil =>
    intro b hb
    cases b with
    | nil => simp [selectKeys]
    | cons x xs => simp at hb
  | cons kv rest ih =>
    intro b hb
    cases b with
    | nil => simp at hb
    | cons bit bs =>
      have hb' : rest.length = bs.length := by simpa using hb
      cases bit <;> simp [selectKeys, ih bs hb', List.count_cons]

/-- A successful co-signature verification implies the B2 bitmap has the
committee's length. -/
theorem cosig_true_b2_length (env : NodeEnv) (committee : DequeOfNode)
    (vcblock : VCBlock) (h : VerifyVCBlockCoSignature env committee vcblock = true) :
    committee.length = vcblock.b2.length := by
  unfold VerifyVCBlockCoSignature at h
  by_cases hlen : committee.length = vcblock.b2.length
  · exact hlen
  · simp [hlen] at h

/-! Claim C8: guard mode freezes the committee in both mutator variants. -/

/-- C8: with the `GUARD_MODE` flag set, both `UpdateDSCommiteeCompositionAfterVC`
and `UpdateRetrieveDSCommiteeCompositionAfterVC` leave the DS committee deque
unchanged, for every VC block implicated and every committee. -/
theorem guard_mode_committee_frozen (selfKey : PubKey) (vcblock : VCBlock)
    (dsComm : DequeOfNode) :
    UpdateDSCommiteeCompositionAfterVC true selfKey vcblock dsComm = dsComm ∧
    UpdateRetrieveDSCommiteeCompositionAfterVC true vcblock dsComm = dsComm := by
  constructor
  · simp [UpdateDSCommiteeCompositionAfterVC]
  · simp [UpdateRetrieveDSCommiteeCompositionAfterVC]

/-! Claim C9: effective fan-out cluster size. -/

/-- C9 counterexample: at `NUM_DS_ELECTION = 2^32 - 1` the unsigned increment
wraps, so the cluster size handed to the broadcast subsystem is 0 and not
`max(NUM_FORWARDED_BLOCK_RECEIVERS_PER_SHARD, NUM_DS_ELECTION + 1)`. -/
theorem cluster_size_overflow_cex :
    sendVCBlockClusterSize 5 4294967295 = 0 ∧
    sendVCBlockClusterSize 5 4294967295 ≠ max 5 (4294967295 + 1) := by
  constructor
  · decide
  · decide

/-- C9 (amended): whenever the two configured constants fit in 32 bits and
`NUM_DS_ELECTION + 1` does not overflow, the cluster size handed to the
broadcast subsystem equals
`max(NUM_FORWARDED_BLOCK_RECEIVERS_PER_SHARD, NUM_DS_ELECTION + 1)`. -/
theorem cluster_size_eq_max (n e : Nat) (hn : n < U32) (he : e + 1 < U32) :
    sendVCBlockClusterSize n e = max n (e + 1) := by
  unfold sendVCBlockClusterSize
  rw [Nat.mod_eq_of_lt hn, Nat.mod_eq_of_lt (by omega : e < U32),
    Nat.mod_eq_of_lt he]
  split
  · omega
  · omega

/-- Witness for the amended C9 at a concrete configuration. -/
theorem cluster_size_eq_max_witness :
    10 < U32 ∧ 3 + 1 < U32 ∧ sendVCBlockClusterSize 10 3 = max 10 (3 + 1) :=
  ⟨by decide, by decide, cluster_size_eq_max 10 3 (by decide) (by decide)⟩

/-! Claim C2: the signer-count gate. -/

/-- C2: for a B2 bitmap of the committee's length, co-signature verification
succeeds only if the number of set bits is exactly
`NumForConsensus |b2| = ⌈2|b2|/3⌉ + 1`; a bitmap with exactly `⌈2|b2|/3⌉` set
bits (one fewer) is rejected, and a bitmap with more than the threshold set
bits is rejected as well. -/
theorem cosig_signer_count_gate (env : NodeEnv) (committee : DequeOfNode)
    (vcblock : VCBlock) (hlen : vcblock.b2.length = committee.length) :
    (VerifyVCBlockCoSignature env committee vcblock = true →
      vcblock.b2.count true = NumForConsensus vcblock.b2.length) ∧
    (vcblock.b2.count true = ceilTwoThirds vcblock.b2.length →
      VerifyVCBlockCoSignature env committee vcblock = false) ∧
    (vcblock.b2.count true > NumForConsensus vcblock.b2.length →
      VerifyVCBlockCoSignature env committee vcblock = false) := by
  have hk : (selectKeys committee vcblock.b2).length = vcblock.b2.count true :=
    selectKeys_length committee vcblock.b2 hlen.symm
  refine ⟨?_, ?_, ?_⟩
  · intro h
    unfold VerifyVCBlockCoSignature at h
    rw [if_neg (by omega)] at h
    by_cases hc : (selectKeys committee vcblock.b2).length
        = NumForConsensus vcblock.b2.length
    · omega
    · simp [hc] at h
  · intro hcnt
    unfold VerifyVCBlockCoSignature
    rw [if_neg (by omega)]
    rw [if_pos (by unfold NumForConsensus; omega)]
  · intro hcnt
    unfold VerifyVCBlockCoSignature
    rw [if_neg (by omega)]
    rw [if_pos (by omega)]

/-- Witness for C2: a three-member committee with a B2 bitmap holding exactly
`⌈2·3/3⌉ = 2` set bits (one below the threshold 3) is rejected. -/
theorem cosig_signer_count_gate_witness :
    ({ vcEx with b2 := [true, true, false] } : VCBlock).b2.count true
        = ceilTwoThirds ({ vcEx with b2 := [true, true, false] } : VCBlock).b2.length ∧
    VerifyVCBlockCoSignature envOk commEx { vcEx with b2 := [true, true, false] }
        = false :=
  ⟨by decide,
    (cosig_signer_count_gate envOk commEx { vcEx with b2 := [true, true, false] }
      (by decide)).2.1 (by decide)⟩

/-! Claim C3: co-signature verification is the multi-signature check over the
composed message. -/

/-- C3: given the bitmap-size and signer-count preconditions, and given that
key aggregation over the B2-selected committee keys and the header
serialization produce values, co-signature verification succeeds exactly when
the multi-signature verification of CS2 under the aggregated key succeeds
over `serialize(header) ++ serialize(cs1) ++ encode_bitvector(b1)`. -/
theorem cosig_iff_multisig (env : NodeEnv) (committee : DequeOfNode)
    (vcblock : VCBlock) (aggKey : Nat) (headerBytes : Bytes)
    (hsize : committee.length = vcblock.b2.length)
    (hcount : (selectKeys committee vcblock.b2).length
      = NumForConsensus vcblock.b2.length)
    (hagg : env.aggregatePubKeys (selectKeys committee vcblock.b2) = some aggKey)
    (hser : env.serializeHeader vcblock.header = some headerBytes) :
    (VerifyVCBlockCoSignature env committee vcblock = true ↔
      env.multiSigVerify
        (headerBytes ++ env.serializeSig vcblock.cs1 ++ env.encodeBitVector vcblock.b1)
        vcblock.cs2 aggKey = true) := by
  unfold VerifyVCBlockCoSignature
  rw [if_neg (by omega), if_neg (by omega), hagg, hser]

/-- Witness for C3 at the concrete accepting scenario. -/
theorem cosig_iff_multisig_witness :
    envOk.aggregatePubKeys (selectKeys commEx vcEx.b2) = some 0 ∧
    envOk.serializeHeader vcEx.header = some [1] ∧
    (VerifyVCBlockCoSignature envOk commEx vcEx = true ↔
      envOk.multiSigVerify
        ([1] ++ envOk.serializeSig vcEx.cs1 ++ envOk.encodeBitVector vcEx.b1)
        vcEx.cs2 0 = true) :=
  ⟨by decide, by decide,
    cosig_iff_multisig envOk commEx vcEx 0 [1] (by decide) (by decide)
      (by decide) (by decide)⟩

/-! Claim C4: the committee mutation moves faulty leaders to the tail. -/

/-- Both branches of the self special-case in the faulty-leader loop erase the
same pair: when the peer field is the zero sentinel, `(pk, Peer())` is the
faulty pair itself. -/
theorem updateStep_eq (selfKey : PubKey) (dsComm : DequeOfNode) (f : PairOfNode) :
    updateStep selfKey dsComm f = dsComm.erase f ++ [f] := by
  unfold updateStep
  split
  · rename_i h
    have hf : (f.1, zeroPeer) = f := by
      rw [← h.2]
    rw [hf]
  · rfl

/-- Erasing an element occurring at most once is filtering it out. -/
theorem erase_eq_filter_of_count_le_one (f : PairOfNode) :
    ∀ (l : DequeOfNode), l.count f ≤ 1 →
      l.erase f = l.filter (fun x => decide (x ≠ f)) := by
  intro l
  induction l with
  | nil => intro _; simp
  | cons a t ih =>
    intro h
    by_cases ha : a = f
    · subst ha
      have h0 : t.count a = 0 := by
        have := List.count_cons_self a t
        omega
      have hnot : a ∉ t := List.count_eq_zero.mp h0
      rw [List.erase_cons_head, List.filter_cons_of_neg (by simp)]
      refine (List.filter_eq_self.mpr ?_).symm
      intro x hx
      simp only [decide_eq_true_eq]
      intro hxa
      exact hnot (hxa ▸ hx)
    · have hfa : f ≠ a := fun hEq => ha hEq.symm
      rw [List.erase_cons_tail (by simp [ha]), List.filter_cons_of_pos (by simp [ha])]
      have ht : t.count f ≤ 1 := by
        have := List.count_cons_of_ne hfa t
        omega
      rw [ih ht]

/-- Folding the faulty-leader loop over a duplicate-free leader list whose
members occur at most once in the committee keeps the non-faulty members in
place and appends the faulty ones at the tail in list order. -/
theorem foldl_updateStep_eq (selfKey : PubKey) :
    ∀ (faulty dsComm : DequeOfNode), faulty.Nodup →
      (∀ f ∈ faulty, dsComm.count f ≤ 1) →
      faulty.foldl (updateStep selfKey) dsComm
        = dsComm.filter (fun x => decide (x ∉ faulty)) ++ faulty := by
  intro faulty
  induction faulty with
  | nil =>
    intro dsComm _ _
    simp
  | cons f fs ih =>
    intro dsComm hnd hcnt
    have hfin : f ∉ fs := (List.nodup_cons.mp hnd).1
    have hnd2 : fs.Nodup := (List.nodup_cons.mp hnd).2
    have hcnt2 : ∀ g ∈ fs, (dsComm.erase f ++ [f]).count g ≤ 1 := by
      intro g hg
      have hgf : g ≠ f := fun hEq => hfin (hEq ▸ hg)
      have h1 := hcnt g (List.mem_cons_of_mem f hg)
      rw [List.count_append, List.count_erase_of_ne hgf]
      have h2 : List.count g [f] = 0 := by simp [hgf]
      omega
    rw [List.foldl_cons, updateStep_eq, ih (dsComm.erase f ++ [f]) hnd2 hcnt2]
    rw [List.filter_append]
    have hsf : List.filter (fun x => decide (x ∉ fs)) [f] = [f] := by
      simp [hfin]
    rw [hsf, erase_eq_filter_of_count_le_one f dsComm (hcnt f (List.mem_cons_self f fs))]
    rw [List.filter_filter]
    have hpred : ∀ x ∈ dsComm,
        (decide (x ∉ fs) && decide (x ≠ f)) = decide (x ∉ f :: fs) := by
      intro x _
      by_cases h1 : x = f <;> by_cases h2 : x ∈ fs <;> simp [h1, h2]
    rw [List.filter_congr hpred]
    simp

/-- In a duplicate-free committee every member has count one. -/
theorem count_eq_one_of_nodup_mem : ∀ (l : DequeOfNode) (f : PairOfNode),
    l.Nodup → f ∈ l → l.count f = 1 := by
  intro l
  induction l with
  | nil => intro f _ hf; cases hf
  | cons a t ih =>
    intro f hnd hf
    have hnd1 : a ∉ t := (List.nodup_cons.mp hnd).1
    have hnd2 : t.Nodup := (List.nodup_cons.mp hnd).2
    by_cases hfa : f = a
    · subst hfa
      have h0 : t.count f = 0 := List.count_eq_zero.mpr hnd1
      rw [List.count_cons_self, h0]
    · rcases List.mem_cons.mp hf with h | h
      · exact absurd h hfa
      · rw [List.count_cons_of_ne hfa, ih f hnd2 h]

/-- C4: with guard mode off, applying a VC block whose faulty-leader list is
duplicate-free and whose entries occur at most once in the committee yields
the committee with the non-faulty members in their original order followed by
the faulty pairs in header order, so every faulty pair occurs exactly once
and the faulty pairs occupy the tail; concretely, `[A,B,C,D,E]` with
`faulty=[B,D]` yields `[A,C,E,B,D]`, and a subsequent apply with `faulty=[B]`
yields `[A,C,E,D,B]`. -/
theorem committee_mutation_faulty_to_tail (selfKey : PubKey) (vcblock : VCBlock)
    (dsComm : DequeOfNode) (hnd : vcblock.header.faultyLeaders.Nodup)
    (hcnt : ∀ f ∈ vcblock.header.faultyLeaders, dsComm.count f ≤ 1) :
    (UpdateDSCommiteeCompositionAfterVC false selfKey vcblock dsComm
      = dsComm.filter (fun x => decide (x ∉ vcblock.header.faultyLeaders))
        ++ vcblock.header.faultyLeaders) ∧
    (∀ f ∈ vcblock.header.faultyLeaders,
      (UpdateDSCommiteeCompositionAfterVC false selfKey vcblock dsComm).count f = 1) ∧
    UpdateDSCommiteeCompositionAfterVC false 99 (vcFaulty [pB, pD])
      [pA, pB, pC, pD, pE] = [pA, pC, pE, pB, pD] ∧
    UpdateDSCommiteeCompositionAfterVC false 99 (vcFaulty [pB])
      [pA, pC, pE, pB, pD] = [pA, pC, pE, pD, pB] := by
  have hmain : UpdateDSCommiteeCompositionAfterVC false selfKey vcblock dsComm
      = dsComm.filter (fun x => decide (x ∉ vcblock.header.faultyLeaders))
        ++ vcblock.header.faultyLeaders := by
    unfold UpdateDSCommiteeCompositionAfterVC
    rw [if_neg (by simp)]
    exact foldl_updateStep_eq selfKey vcblock.header.faultyLeaders dsComm hnd hcnt
  refine ⟨hmain, ?_, by decide, by decide⟩
  intro f hf
  rw [hmain, List.count_append]
  have h0 : (dsComm.filter (fun x => decide (x ∉ vcblock.header.faultyLeaders))).count f
      = 0 := by
    rw [List.count_eq_zero]
    intro hmem
    have hpf := List.of_mem_filter hmem
    simp only [decide_eq_true_eq] at hpf
    exact hpf hf
  rw [h0, count_eq_one_of_nodup_mem vcblock.header.faultyLeaders f hnd hf]

/-- Witness for C4 at the worked example of the claim. -/
theorem committee_mutation_faulty_to_tail_witness :
    (vcFaulty [pB, pD]).header.faultyLeaders.Nodup ∧
    UpdateDSCommiteeCompositionAfterVC false 99 (vcFaulty [pB, pD])
        [pA, pB, pC, pD, pE]
      = [pA, pB, pC, pD, pE].filter
          (fun x => decide (x ∉ (vcFaulty [pB, pD]).header.faultyLeaders))
        ++ (vcFaulty [pB, pD]).header.faultyLeaders :=
  ⟨by decide,
    (committee_mutation_faulty_to_tail 99 (vcFaulty [pB, pD]) [pA, pB, pC, pD, pE]
      (by decide) (by decide)).1⟩

/-! Claims C1, C5, C6, C10: the validation pipeline. -/

/-- If any core validation gate fails, `ProcessVCBlockCore` returns a failure
with the state untouched. -/
theorem ProcessVCBlockCore_gate_fail (env : NodeEnv) (s : NodeState)
    (vcblock : VCBlock) (h : ¬ coreGatesPass env s vcblock) :
    ProcessVCBlockCore env s vcblock = (false, s) := by
  unfold ProcessVCBlockCore
  by_cases h1 : vcblock.header.viewChangeEpochNo = env.currentEpochNum
  case neg => rw [if_pos h1]
  rw [if_neg (not_not_intro h1)]
  by_cases h2 : env.checkWhetherBlockIsLatest vcblock.header.viewChangeDSEpochNo
      vcblock.header.viewChangeEpochNo = true
  case neg => rw [if_pos (by simp_all)]
  rw [if_neg (by simp [h2])]
  by_cases h3 : env.getMyHash vcblock.header = vcblock.blockHash
  case neg => rw [if_pos h3]
  rw [if_neg (not_not_intro h3)]
  by_cases h4 : (s.vcBlockStore.lookup (env.getMyHash vcblock.header)).isSome = true
  case pos => rw [if_pos h4]
  rw [if_neg h4]
  by_cases h5 : env.verifyTimestamp vcblock.timestamp = true
  case neg => rw [if_pos (by simp_all)]
  rw [if_neg (by simp [h5])]
  cases hch : env.getDSCommitteeHash s.dsCommittee with
  | none => rfl
  | some committeeHash =>
    dsimp only
    by_cases h6 : committeeHash = vcblock.header.committeeHash
    case neg => rw [if_pos h6]
    rw [if_neg (not_not_intro h6)]
    by_cases h7 : VerifyVCBlockCoSignature env s.dsCommittee vcblock = true
    case neg => rw [if_pos (by simp_all)]
    exfalso
    apply h
    have h4n : s.vcBlockStore.lookup (env.getMyHash vcblock.header) = none :=
      Option.not_isSome_iff_eq_none.mp h4
    exact ⟨h1, h2, h3, h4n, h5, h6 ▸ hch, h7⟩

/-- C1: for every inbound VC block message, if any validation gate of the
pipeline fails (decode, version, state tag, epoch equality, freshness,
self-hash, duplicate, timestamp, committee hash, or co-signature), then
`ProcessVCBlock` returns a failure, no block link is appended, no block is
persisted, the DS committee is unchanged, and nothing is forwarded. -/
theorem vc_gate_failure_no_side_effects (env : NodeEnv) (s : NodeState)
    (message : Bytes) (curOffset : Nat)
    (h : ¬ allGatesPass env s message curOffset) :
    ProcessVCBlock env s message curOffset = (false, s, []) := by
  unfold ProcessVCBlock
  cases hdec : env.getNodeVCBlock message curOffset with
  | none => rfl
  | some vcblock =>
    dsimp only
    by_cases hver : vcblock.header.version = env.vcBlockVersion
    case neg => rw [if_pos hver]
    rw [if_neg (not_not_intro hver)]
    by_cases hstate : env.isDSBlockVCState vcblock.header.viewChangeState = true
    case pos => rw [if_pos hstate]
    rw [if_neg hstate]
    have hstate2 : env.isDSBlockVCState vcblock.header.viewChangeState = false := by
      revert hstate
      cases env.isDSBlockVCState vcblock.header.viewChangeState <;> simp
    by_cases hcore : coreGatesPass env s vcblock
    · exact absurd ⟨vcblock, hdec, hver, hstate2, hcore⟩ h
    · rw [ProcessVCBlockCore_gate_fail env s vcblock hcore]
      simp

/-- Witness for C1: a decoder failure aborts the pipeline with the state and
the outbound queue untouched. -/
theorem vc_gate_failure_no_side_effects_witness :
    ¬ allGatesPass envDecodeFail sEx [0] 0 ∧
    ProcessVCBlock envDecodeFail sEx [0] 0 = (false, sEx, []) := by
  have hno : ¬ allGatesPass envDecodeFail sEx [0] 0 := by
    rintro ⟨vcblock, hvc, -⟩
    exact Option.noConfusion hvc
  exact ⟨hno, vc_gate_failure_no_side_effects envDecodeFail sEx [0] 0 hno⟩

/-- C6: when every validation gate passes but the persistence write fails,
`ProcessVCBlockCore` returns a failure, yet the block link appended just
before the write remains on the chain (no rollback), while the store and the
DS committee are untouched. -/
theorem persist_failure_keeps_link (env : NodeEnv) (s : NodeState)
    (vcblock : VCBlock) (hg : coreGatesPass env s vcblock)
    (hput : env.putVCBlockOk = false) :
    ProcessVCBlockCore env s vcblock = (false, withLink s vcblock) ∧
    (withLink s vcblock).blockLinks = vcBlockLink s vcblock :: s.blockLinks ∧
    (withLink s vcblock).vcBlockStore = s.vcBlockStore ∧
    (withLink s vcblock).dsCommittee = s.dsCommittee := by
  obtain ⟨h1, h2, h3, h4, h5, h6, h7⟩ := hg
  refine ⟨?_, rfl, rfl, rfl⟩
  unfold ProcessVCBlockCore
  rw [if_neg (not_not_intro h1), if_neg (by simp [h2]), if_neg (not_not_intro h3),
    if_neg (by simp [h4]), if_neg (by simp [h5])]
  simp only [h6]
  rw [if_neg (not_not_intro rfl), if_neg (by simp [h7]), if_pos (by simp [hput])]

/-- Witness for C6 at the concrete accepting scenario with a failing store. -/
theorem persist_failure_keeps_link_witness :
    coreGatesPass envPutFail sEx vcEx ∧
    envPutFail.putVCBlockOk = false ∧
    ProcessVCBlockCore envPutFail sEx vcEx = (false, withLink sEx vcEx) := by
  have hg : coreGatesPass envPutFail sEx vcEx := by
    unfold coreGatesPass
    exact ⟨rfl, rfl, rfl, rfl, rfl, rfl, rfl⟩
  exact ⟨hg, rfl, (persist_failure_keeps_link envPutFail sEx vcEx hg rfl).1⟩

/-- A successful core run implies the co-signature gate passed. -/
theorem core_true_cosig (env : NodeEnv) (s : NodeState) (vcblock : VCBlock)
    (h : (ProcessVCBlockCore env s vcblock).1 = true) :
    VerifyVCBlockCoSignature env s.dsCommittee vcblock = true := by
  unfold ProcessVCBlockCore at h
  repeat' split at h
  all_goals try simp_all

/-- C5 counterexample: the concrete block `vcEx` carries an empty B1 bitmap,
yet the full pipeline admits it from the three-member committee; the
pipeline never checks the length of B1. -/
theorem admitted_block_b1_length_cex :
    envOk.getNodeVCBlock [0] 0 = some vcEx ∧
    (ProcessVCBlock envOk sEx [0] 0).1 = true ∧
    vcEx.b1.length ≠ sEx.dsCommittee.length := by
  refine ⟨rfl, by decide, by decide⟩

/-- C5 (amended): for every VC block accepted by the full pipeline, the
length of bitmap B2 equals the DS committee size at admission time; the
length of B1 is not constrained by the pipeline. -/
theorem admitted_block_b2_length (env : NodeEnv) (s : NodeState)
    (message : Bytes) (curOffset : Nat) (vcblock : VCBlock)
    (hdec : env.getNodeVCBlock message curOffset = some vcblock)
    (hok : (ProcessVCBlock env s message curOffset).1 = true) :
    vcblock.b2.length = s.dsCommittee.length := by
  have hcore : (ProcessVCBlockCore env s vcblock).1 = true := by
    unfold ProcessVCBlock at hok
    rw [hdec] at hok
    repeat' split at hok
    all_goals try simp_all
  exact (cosig_true_b2_length env s.dsCommittee vcblock
    (core_true_cosig env s vcblock hcore)).symm

/-- Witness for the amended C5 at the concrete accepting scenario. -/
theorem admitted_block_b2_length_witness :
    (ProcessVCBlock envOk sEx [0] 0).1 = true ∧
    vcEx.b2.length = sEx.dsCommittee.length :=
  ⟨by decide, admitted_block_b2_length envOk sEx [0] 0 vcEx rfl (by decide)⟩

/-- C10: when the core pipeline succeeds but the fan-out re-encoding fails,
`ProcessVCBlock` still returns success, nothing is forwarded, and the state
committed by the core (link, stored block, mutated committee) is returned
unchanged. -/
theorem encode_failure_after_success_still_true (env : NodeEnv) (s : NodeState)
    (message : Bytes) (curOffset : Nat) (vcblock : VCBlock) (s2 : NodeState)
    (hdec : env.getNodeVCBlock message curOffset = some vcblock)
    (hver : vcblock.header.version = env.vcBlockVersion)
    (hstate : env.isDSBlockVCState vcblock.header.viewChangeState = false)
    (hcore : ProcessVCBlockCore env s vcblock = (true, s2))
    (hlookup : env.lookupNodeMode = false)
    (hbcast : env.broadcastTreebasedClusterMode = true)
    (henc : env.setNodeVCBlock vcblock = none) :
    ProcessVCBlock env s message curOffset = (true, s2, []) := by
  unfold ProcessVCBlock
  rw [hdec]
  dsimp only
  rw [if_neg (not_not_intro hver), if_neg (by simp [hstate])]
  rw [if_neg (by simp [hcore]), if_pos (by simp [hlookup, hbcast])]
  simp only [henc, hcore]

/-- Witness for C10 at the concrete scenario with a failing re-encoder. -/
theorem encode_failure_after_success_still_true_witness :
    ProcessVCBlockCore envNoEncode sEx vcEx = (true, sAfterEx) ∧
    envNoEncode.setNodeVCBlock vcEx = none ∧
    ProcessVCBlock envNoEncode sEx [0] 0 = (true, sAfterEx, []) := by
  refine ⟨by decide, rfl, ?_⟩
  exact encode_failure_after_success_still_true envNoEncode sEx [0] 0 vcEx sAfterEx
    rfl rfl rfl (by decide) rfl rfl rfl

/-! Claim C7 documentation. The retarget implementation is absent from the
translated file; the only semantics the spec offers for it (§4.6) is checked
here against the spec's own golden vectors. -/

/-- The §4.6 prose semantics contradicts the first golden vector of spec §8
(and of the in-repository test `difficulty_adjustment_small_network`): on
`cur=3, min=3, nodes=20, subs=23, expected=200, thr=99, epoch=200,
per_year=10000` it returns 3 where the vector requires 4, so no model that is
faithful to the prose can settle the golden-vector claim. -/
theorem specProseRetarget_contradicts_golden_vector :
    specProseRetarget 3 3 20 23 200 99 200 10000 = 3 ∧
    specProseRetarget 3 3 20 23 200 99 200 10000 ≠ 4 := by
  constructor
  · decide
  · decide

end Zil
